import Mathlib

/-!
Verification of the xAgentic plan-executor engine (src/xAgentic-backend).

The development shallowly embeds the parts of the code the claims touch:
  * `utils/json_utils.py` (`json_match` and its fallback ladder),
  * `graph/plan_executor_graph.py` (`_analyze_and_plan`, `_execute_node`,
    `_after_execute_node`, `_do_execute`, the conditional-edge loop),
  * `graph/base_graph.py` (`_extract_execution_result`),
  * `utils/custom_serializer.py` (`dumps_typed` / `loads_typed`),
  * `api/chat.py` (`handle_user_feedback_stream`).

External collaborators (the LLM providers, the tool catalog, langgraph's
scheduler) are modelled as oracle parameters; pickle is modelled as a
faithful round trip on the embedded object type.
-/

set_option maxRecDepth 100000

namespace XAgentic

/-- JSON values as produced by Python's `json.loads`; numbers are restricted
to integers, which covers every payload the plan-executor code exchanges. -/
inductive JsonVal where
  | null : JsonVal
  | bool (b : Bool) : JsonVal
  | num (n : Int) : JsonVal
  | str (s : String) : JsonVal
  | arr (xs : List JsonVal) : JsonVal
  | obj (kvs : List (String × JsonVal)) : JsonVal

/-- Dictionary lookup, `d.get(k)` on a parsed JSON object (None on non-dicts). -/
def JsonVal.getKey (k : String) : JsonVal → Option JsonVal
  | .obj kvs => kvs.lookup k
  | _ => none

/-- Python truthiness of a JSON value (`bool(v)`). -/
def JsonVal.truthy : JsonVal → Bool
  | .null => false
  | .bool b => b
  | .num n => n != 0
  | .str s => !s.isEmpty
  | .arr xs => !xs.isEmpty
  | .obj kvs => !kvs.isEmpty

/-- Whether a parsed JSON object carries key `k` (`k in d`). -/
def JsonVal.hasKey (k : String) (v : JsonVal) : Bool :=
  (v.getKey k).isSome

/-- The elements of an array value; the engine only ever stores arrays in
`execution_plan` (a truthy non-array there would crash the Python executor
at indexing, outside the planning node's own behaviour). -/
def JsonVal.asArray : JsonVal → List JsonVal
  | .arr xs => xs
  | _ => []

/-- Skip JSON whitespace, as `json.loads` does between tokens. -/
def skip_ws : List Char → List Char
  | c :: rest =>
    if c = ' ' || c = '\n' || c = '\t' || c = '\r' then skip_ws rest else c :: rest
  | [] => []

/-- Parse the remainder of a JSON string literal (after the opening quote),
handling the escape forms the repository's payloads use. -/
def parse_string_chars : List Char → Option (List Char × List Char)
  | [] => none
  | c :: rest =>
    if c = '"' then some ([], rest)
    else if c = '\\' then
      match rest with
      | [] => none
      | e :: rest2 =>
        let ec := if e = 'n' then '\n' else if e = 't' then '\t' else e
        match parse_string_chars rest2 with
        | some (s, r) => some (ec :: s, r)
        | none => none
    else
      match parse_string_chars rest with
      | some (s, r) => some (c :: s, r)
      | none => none

/-- Longest digit run at the head of the input. -/
def span_digits : List Char → List Char × List Char
  | [] => ([], [])
  | c :: rest =>
    if c.isDigit then
      let (d, r) := span_digits rest
      (c :: d, r)
    else ([], c :: rest)

/-- Numeric value of a digit run. -/
def digits_to_nat (ds : List Char) : Nat :=
  ds.foldl (fun acc c => acc * 10 + (c.toNat - '0'.toNat)) 0

/-- Parse a nonempty digit run into a natural number. -/
def parse_nat_digits (cs : List Char) : Option (Nat × List Char) :=
  let (ds, r) := span_digits cs
  if ds.isEmpty then none else some (digits_to_nat ds, r)

mutual

/-- Recursive-descent embedding of `json.loads` on the integer-numbered JSON
subset; fuel bounds nesting and is always supplied as input length + 1. -/
def parse_value : Nat → List Char → Option (JsonVal × List Char)
  | 0, _ => none
  | f + 1, cs =>
    match skip_ws cs with
    | '{' :: rest =>
      (match skip_ws rest with
       | '}' :: r2 => some (.obj [], r2)
       | r2 =>
         match parse_members f r2 with
         | some (kvs, r3) => some (.obj kvs, r3)
         | none => none)
    | '[' :: rest =>
      (match skip_ws rest with
       | ']' :: r2 => some (.arr [], r2)
       | r2 =>
         match parse_items f r2 with
         | some (xs, r3) => some (.arr xs, r3)
         | none => none)
    | '"' :: rest =>
      (match parse_string_chars rest with
       | some (s, r) => some (.str (String.mk s), r)
       | none => none)
    | 'n' :: 'u' :: 'l' :: 'l' :: rest => some (.null, rest)
    | 't' :: 'r' :: 'u' :: 'e' :: rest => some (.bool true, rest)
    | 'f' :: 'a' :: 'l' :: 's' :: 'e' :: rest => some (.bool false, rest)
    | '-' :: rest =>
      (match parse_nat_digits rest with
       | some (n, r) => some (.num (-(n : Int)), r)
       | none => none)
    | c :: rest =>
      if c.isDigit then
        match parse_nat_digits (c :: rest) with
        | some (n, r) => some (.num (n : Int), r)
        | none => none
      else none
    | [] => none

/-- Object members: `"key": value` separated by commas (no trailing comma). -/
def parse_members : Nat → List Char → Option (List (String × JsonVal) × List Char)
  | 0, _ => none
  | f + 1, cs =>
    match cs with
    | '"' :: rest =>
      (match parse_string_chars rest with
       | some (key, r1) =>
         (match skip_ws r1 with
          | ':' :: r2 =>
            (match parse_value f r2 with
             | some (v, r3) =>
               (match skip_ws r3 with
                | ',' :: r4 =>
                  (match parse_members f (skip_ws r4) with
                   | some (kvs, r5) => some ((String.mk key, v) :: kvs, r5)
                   | none => none)
                | '}' :: r4 => some ([(String.mk key, v)], r4)
                | _ => none)
             | none => none)
          | _ => none)
       | none => none)
    | _ => none

/-- Array items separated by commas (no trailing comma). -/
def parse_items : Nat → List Char → Option (List JsonVal × List Char)
  | 0, _ => none
  | f + 1, cs =>
    match parse_value f cs with
    | some (v, r1) =>
      (match skip_ws r1 with
       | ',' :: r2 =>
         (match parse_items f (skip_ws r2) with
          | some (xs, r3) => some (v :: xs, r3)
          | none => none)
       | ']' :: r2 => some ([v], r2)
       | _ => none)
    | none => none

end

/-- Embedding of `json.loads(s)`: one JSON document, nothing but whitespace
after it; `none` is the `json.JSONDecodeError` outcome. -/
def py_json_loads_chars (cs : List Char) : Option JsonVal :=
  match parse_value (cs.length + 1) cs with
  | some (v, rest) => if (skip_ws rest).isEmpty then some v else none
  | none => none

/-- String-level wrapper for `json.loads`. -/
def py_json_loads (s : String) : Option JsonVal :=
  py_json_loads_chars s.data

/-- Index of the last occurrence of `c`. -/
def last_idx_of (c : Char) (cs : List Char) : Option Nat :=
  match cs.reverse.findIdx? (· = c) with
  | none => none
  | some k => some (cs.length - 1 - k)

/-- The span matched by `re.search(r'\{.*\}', content, re.DOTALL)`: with the
greedy `.*`, this is the substring from the first `\x7b` to the last `\x7d`
(when the first `\x7b` precedes the last `\x7d`), the leftmost-longest match. -/
def first_last_brace_span (cs : List Char) : Option (List Char) :=
  match cs.findIdx? (· = '{') with
  | none => none
  | some i =>
    match last_idx_of '}' cs with
    | none => none
    | some j => if i < j then some ((cs.drop i).take (j - i + 1)) else none

/-- Deterministic scan equivalent to matching the brace-block regexes of
`json_utils.py` at a fixed start: having consumed the opening `\x7b`, walk the
input keeping the current nesting depth; a `\x7b` beyond `maxDepth` makes the
whole match fail (the regex admits only `maxDepth` levels inside the block),
and the block closes at the first `\x7d` returning to depth zero. Returns the
matched characters (closing brace included) and the rest. -/
def block_aux (maxDepth : Nat) : Nat → List Char → Option (List Char × List Char)
  | _, [] => none
  | depth, c :: rest =>
    if c = '}' then
      if depth = 0 then some ([c], rest)
      else
        match block_aux maxDepth (depth - 1) rest with
        | some (m, r) => some (c :: m, r)
        | none => none
    else if c = '{' then
      if maxDepth ≤ depth then none
      else
        match block_aux maxDepth (depth + 1) rest with
        | some (m, r) => some (c :: m, r)
        | none => none
    else
      match block_aux maxDepth depth rest with
      | some (m, r) => some (c :: m, r)
      | none => none

/-- Embedding of `re.findall` for the depth-limited brace-block patterns of
`json_utils.py` (`maxDepth = 1` for the third strategy, `2` for the fourth):
scan left to right, collect non-overlapping leftmost matches, and restart at
the next character when a candidate start fails. Fuel is supplied as the input
length, which the scan never exhausts. -/
def find_all_blocks (maxDepth : Nat) : Nat → List Char → List (List Char)
  | 0, _ => []
  | _, [] => []
  | f + 1, c :: rest =>
    if c = '{' then
      match block_aux maxDepth 0 rest with
      | some (m, r) => (c :: m) :: find_all_blocks maxDepth f r
      | none => find_all_blocks maxDepth f rest
    else find_all_blocks maxDepth f rest

/-- First block in the list that `json.loads` accepts, as in the `for match
in json_matches` loops of `json_match`. -/
def first_parseable : List (List Char) → Option JsonVal
  | [] => none
  | b :: bs =>
    match py_json_loads_chars b with
    | some v => some v
    | none => first_parseable bs

/-- Embedding of `json_utils.json_match`: empty input gives `{}`; then try a
whole-payload parse; then parse the single greedy first-brace-to-last-brace
span; then the first parseable depth-≤1 block; then the first parseable
depth-≤2 block; `{}` when everything fails. -/
def json_match (content : String) : JsonVal :=
  let cs := content.data
  if cs.isEmpty then .obj []
  else
    match py_json_loads_chars cs with
    | some v => v
    | none =>
      match (first_last_brace_span cs).bind py_json_loads_chars with
      | some v => v
      | none =>
        match first_parseable (find_all_blocks 1 cs.length cs) with
        | some v => v
        | none =>
          match first_parseable (find_all_blocks 2 cs.length cs) with
          | some v => v
          | none => .obj []

/-- All contiguous substrings, ordered by start position, then by length. -/
def all_substrings (cs : List Char) : List (List Char) :=
  cs.tails.flatMap (fun t => (List.range t.length).map (fun k => t.take (k + 1)))

/-- A candidate embedded block: starts with `\x7b` and ends with `\x7d`. -/
def brace_delimited : List Char → Bool
  | '{' :: rest => rest.getLast? = some '}'
  | _ => false

/-- Longest list among the candidates (first one on ties). -/
def longest_of (bs : List (List Char)) : Option (List Char) :=
  bs.foldl
    (fun acc b =>
      match acc with
      | none => some b
      | some a => if a.length < b.length then some b else some a)
    none

/-- Modelled from the spec: "search for the largest well-formed embedded
structured block" — the longest brace-delimited substring that parses. -/
def largest_well_formed_block (cs : List Char) : Option JsonVal :=
  (longest_of ((all_substrings cs).filter
      (fun b => brace_delimited b && (py_json_loads_chars b).isSome))).bind
    py_json_loads_chars

/-- Modelled from the spec: "fall back to the first parseable nested block" —
the first brace-delimited substring (in text order) that parses. -/
def first_parseable_block (cs : List Char) : Option JsonVal :=
  first_parseable ((all_substrings cs).filter brace_delimited)

/-- Modelled from the spec: the parse ladder as §4.1/§9 describe it — attempt
a whole-payload parse, then the largest well-formed embedded structured block,
then the first parseable nested block. -/
def spec_parse_ladder (content : String) : Option JsonVal :=
  match py_json_loads content with
  | some v => some v
  | none =>
    match largest_well_formed_block content.data with
    | some v => some v
    | none => first_parseable_block content.data

/-- A langgraph message as the extraction code observes it: whether its class
name carries the assistant tag (`'AI' in msg.__class__.__name__`, and in
`base_graph.py` `'ai' in str(type(msg)).lower() or 'assistant' in ...`),
its `content` attribute when present, and its `str(...)` rendering. -/
structure Msg where
  is_ai : Bool
  content : Option String
  repr : String
deriving DecidableEq

/-- The shapes an agent/LLM invocation result can take, as the duck-typed
extraction code distinguishes them: a dict carrying `"messages"`, a dict
carrying `"output"` (only `base_graph.py` treats this case specially), an
object with a `content` attribute, or anything else rendered via `str(...)`
together with its Python truthiness. -/
inductive AgentResult where
  | messagesDict (msgs : List Msg) (repr : String)
  | outputDict (output : String) (repr : String)
  | contentObj (content : String)
  | bare (repr : String) (truthy : Bool)
deriving DecidableEq

/-- The `for msg in reversed(messages)` scan of `_do_execute`: first message
(in the given order, which callers pass already reversed) that has a `content`
attribute and the assistant tag; `none` reproduces the loop's `else` clause. -/
def find_ai_content : List Msg → Option String
  | [] => none
  | m :: rest =>
    if m.content.isSome && m.is_ai then m.content else find_ai_content rest

/-- Result extraction of `plan_executor_graph._do_execute` (lines 290-313):
default `"节点执行完成"`; in a `"messages"` dict take the last assistant-tagged
message's content, else the last message (its `content`, else `str(...)`); an
object with `content` yields that; any other truthy result yields `str(...)`. -/
def do_execute_extract (result : AgentResult) : String :=
  match result with
  | .messagesDict msgs _ =>
    if msgs.isEmpty then "节点执行完成"
    else
      match find_ai_content msgs.reverse with
      | some c => c
      | none =>
        match msgs.getLast? with
        | some last => last.content.getD last.repr
        | none => "节点执行完成"
  | .outputDict _ r => r
  | .contentObj c => c
  | .bare r truthy => if truthy then r else "节点执行完成"

/-- Marker scanned for by `base_graph._extract_execution_result`. -/
def apology_marker : String := "sorry"

/-- Whether `needle` occurs as a contiguous run inside `hay`. -/
def contains_sub (needle : List Char) : List Char → Bool
  | [] => needle.isEmpty
  | c :: rest => needle.isPrefixOf (c :: rest) || contains_sub needle rest

/-- Character-wise lowercasing, the `.lower()` of the Python code (ASCII
range, which covers the scanned-for marker). -/
def to_lower_chars (cs : List Char) : List Char :=
  cs.map Char.toLower

/-- The pre-wrapping selection of `base_graph._extract_execution_result`:
like `_do_execute`'s, but the empty string is the default, a `"messages"`-less
dict with `"output"` yields `str(result["output"])`, and a falsy result leaves
the default. -/
def base_extract_inner (result : AgentResult) : String :=
  match result with
  | .messagesDict msgs _ =>
    if msgs.isEmpty then ""
    else
      match find_ai_content msgs.reverse with
      | some c => c
      | none =>
        match msgs.getLast? with
        | some last => last.content.getD last.repr
        | none => ""
  | .outputDict o _ => o
  | .contentObj c => c
  | .bare r truthy => if truthy then r else ""

/-- Embedding of `base_graph._extract_execution_result` (lines 87-128): the
selection above, wrapped with the step description and a completed-status
annotation whenever it is shorter than 10 characters or contains the apology
marker case-insensitively. -/
def extract_execution_result (result : AgentResult) (node_description : String) :
    String :=
  let er := base_extract_inner result
  if er.length < 10 || contains_sub apology_marker.data (to_lower_chars er.data) then
    "任务描述: " ++ node_description ++ "\n执行状态: 已完成\n结果: " ++ er
  else er

/-- One appended entry of `step_results`, as `_do_execute` builds it (the
wall-clock timestamp and duration fields are elided; they carry no logical
content for the claims under verification). -/
structure StepResult where
  step : Nat
  execution_result : String
  status : String
deriving DecidableEq

/-- Outcome of the tool-augmented agent invocation inside `_do_execute`:
either a returned result value or a raised exception rendered by `str(e)`. -/
inductive AgentOutcome where
  | ok (r : AgentResult)
  | err (e : String)
deriving DecidableEq

/-- Embedding of `plan_executor_graph._do_execute` (lines 262-344): on a
successful agent invocation, a `"completed"` StepResult holding the extracted
text; on any raised error, a `"failed"` StepResult holding the error — there
is no fallback invocation of any kind in this function. The step dict itself
only feeds the prompt of the external agent call, so it does not appear in
the result. -/
def do_execute (outcome : AgentOutcome) (_node : JsonVal) (node_index : Nat) :
    StepResult :=
  match outcome with
  | .ok r =>
    { step := node_index + 1
      execution_result := do_execute_extract r
      status := "completed" }
  | .err e =>
    { step := node_index + 1
      execution_result := "节点执行失败: " ++ e
      status := "failed" }

/-- Modelled from the spec (§4.4, §8): a step executor that, when the
tool-augmented agent invocation raises, makes exactly one direct toolless
inference call with the same prompt content and reports `completed` when that
fallback succeeds. The repository's `_do_execute` has no such path; this
definition exists to compare the spec's contract with the code's. -/
def do_execute_with_fallback (agent fallback : AgentOutcome) (_node : JsonVal)
    (node_index : Nat) : StepResult :=
  match agent with
  | .ok r =>
    { step := node_index + 1
      execution_result := do_execute_extract r
      status := "completed" }
  | .err _ =>
    match fallback with
    | .ok r =>
      { step := node_index + 1
        execution_result := do_execute_extract r
        status := "completed" }
    | .err e =>
      { step := node_index + 1
        execution_result := "节点执行失败: " ++ e
        status := "failed" }

/-- One entry of `streaming_chunks`: the `step` tag and, for `node_completed`
chunks, the step result the chunk's `data` carries (the human-readable message
text and the remaining data fields are elided). -/
structure Chunk where
  step : String
  result : Option StepResult
deriving DecidableEq

/-- The `PlanExecutorState` TypedDict fields the claims touch (`messages`,
`thread_id` and `timing_info` are elided: they never influence the transition
logic under verification). -/
structure ExecState where
  task_analysis : JsonVal
  execution_plan : List JsonVal
  current_step : Nat
  step_results : List StepResult
  final_response : String
  status : String
  error : String
  streaming_chunks : List Chunk

/-- Embedding of `_add_streaming_chunk`. -/
def add_streaming_chunk (s : ExecState) (step : String)
    (result : Option StepResult) : ExecState :=
  { s with streaming_chunks := s.streaming_chunks ++ [⟨step, result⟩] }

/-- The initial state built by `chat_with_planning_stream`. -/
def initial_state : ExecState :=
  { task_analysis := .str ""
    execution_plan := []
    current_step := 0
    step_results := []
    final_response := ""
    status := "initializing"
    error := ""
    streaming_chunks := [] }

/-- The planning node's acceptance check: `plan_data.get("execution_plan")`
must exist and be truthy, on a truthy dict; any other shape raises inside the
`try` (the `{}` parse failure, a falsy dict, or the `AttributeError` of `.get`
on a non-dict) and lands in the failure branch. -/
def plan_value (plan_data : JsonVal) : Option JsonVal :=
  match plan_data.getKey "execution_plan" with
  | some v => if v.truthy then some v else none
  | none => none

/-- Embedding of `_analyze_and_plan` (lines 126-169), given the planner LLM's
response text (the inference call is an external collaborator): parse with
`json_match`; when no truthy `execution_plan` is recovered, set
`error = "计划解析失败"` and `status = "failed"`; otherwise store the analysis
and the plan, reset cursor and results, set `status = "planned"` and emit the
`planning` chunk. -/
def analyze_and_plan (response_content : String) (s : ExecState) : ExecState :=
  let plan_data := json_match response_content
  match plan_value plan_data with
  | some v =>
    let s1 := { s with
      task_analysis := (plan_data.getKey "task_analysis").getD (.str "")
      execution_plan := v.asArray
      current_step := 0
      step_results := []
      status := "planned" }
    add_streaming_chunk s1 "planning" none
  | none => { s with error := "计划解析失败", status := "failed" }

/-- Embedding of `_execute_node` (lines 173-249), with the agent invocation's
outcome supplied as an oracle: past-the-end cursor marks all nodes completed;
otherwise emit `executing_node`, run `_do_execute`, append the result, advance
the cursor, emit `node_completed` carrying the result, and only then branch on
failure (`node_failed` status, error text, `execution_failed` chunk) versus
success (`node_completed` status). -/
def execute_node (outcome : AgentOutcome) (s : ExecState) : ExecState :=
  if s.execution_plan.length ≤ s.current_step then
    { s with status := "all_nodes_completed" }
  else
    let current_node := s.execution_plan.getD s.current_step .null
    let s1 := add_streaming_chunk s "executing_node" none
    let node_result := do_execute outcome current_node s1.current_step
    let s2 := { s1 with
      step_results := s1.step_results ++ [node_result]
      current_step := s1.current_step + 1 }
    let s3 := add_streaming_chunk s2 "node_completed" (some node_result)
    if node_result.status = "failed" then
      let s4 := { s3 with
        status := "node_failed"
        error := "节点 " ++ toString (s.current_step + 1) ++ " 执行失败: "
          ++ node_result.execution_result }
      add_streaming_chunk s4 "execution_failed" none
    else
      { s3 with status := "node_completed" }

/-- Embedding of `_after_execute_node` (lines 252-259): the conditional-edge
router out of `execute_node`. -/
def after_execute_node (s : ExecState) : String :=
  if s.status = "all_nodes_completed" then "complete"
  else if s.status = "node_failed" then "complete"
  else "next_node"

/-- Embedding of `_generate_response` (lines 346-443), with the summarizer
LLM's outcome supplied as an oracle: on success, strip the text, store it,
set `status = "completed"` and emit the `completed` chunk; on a raised error,
set the error and `status = "failed"`. -/
def generate_response (summary : Except String String) (s : ExecState) :
    ExecState :=
  match summary with
  | .ok text =>
    let s1 := { s with final_response := text.trim, status := "completed" }
    add_streaming_chunk s1 "completed" none
  | .error e => { s with error := e, status := "failed" }

/-- The compiled graph's cycle after planning (`_build_graph`, lines 99-124):
run `execute_node`, route with `after_execute_node`, loop on `next_node` and
finish through `generate_response` on `complete`. The agent outcome for the
step at cursor `i` is `orc i`; fuel bounds the number of graph steps and any
value above the plan length is ample. -/
def run_loop (orc : Nat → AgentOutcome) (summary : Except String String) :
    Nat → ExecState → ExecState
  | 0, s => s
  | fuel + 1, s =>
    let s' := execute_node (orc s.current_step) s
    if after_execute_node s' = "complete" then generate_response summary s'
    else run_loop orc summary fuel s'

/-- The `step_cursor == len(results)` invariant of the spec's data model. -/
def cursor_invariant (s : ExecState) : Prop :=
  s.current_step = s.step_results.length

instance (s : ExecState) : Decidable (cursor_invariant s) := by
  unfold cursor_invariant; infer_instance

/-- The Python object graphs `CustomSerializer` handles: plain picklable data
(dicts, lists, strings, ints, booleans, None) and the four LangChain message
classes, carried with exactly the attributes the serializer reads off them. -/
inductive Obj where
  | dict (kvs : List (String × Obj))
  | list (xs : List Obj)
  | str (s : String)
  | int (n : Int)
  | boolean (b : Bool)
  | none_obj
  | ai_message (content : String) (kwargs : List (String × Obj)) (id : Option String)
  | human_message (content : String) (kwargs : List (String × Obj)) (id : Option String)
  | system_message (content : String) (kwargs : List (String × Obj)) (id : Option String)
  | tool_message (content : String) (tool_call_id : Option String)
      (name : Option String) (kwargs : List (String × Obj)) (id : Option String)

/-- Optional string attributes become `str` or None in the message dicts. -/
def opt_str : Option String → Obj
  | some s => .str s
  | none => .none_obj

/-- The dict `dumps_typed` builds for an AI/Human/System message. -/
def message_dict (ty content : String) (kwargs : List (String × Obj))
    (id : Option String) : Obj :=
  .dict [("type", .str ty), ("content", .str content),
         ("additional_kwargs", .dict kwargs), ("id", opt_str id)]

/-- Embedding of `CustomSerializer.dumps_typed` (lines 42-63): messages are
flattened into tagged dicts, everything else goes through plain pickle.
Pickle itself is modelled as the faithful identity on the object graph (its
bytes stand for the object they encode). -/
def dumps_typed : Obj → String × Obj
  | .tool_message c t n kw i =>
    ("ToolMessage",
      .dict [("type", .str "ToolMessage"), ("content", .str c),
             ("tool_call_id", opt_str t), ("name", opt_str n),
             ("additional_kwargs", .dict kw), ("id", opt_str i)])
  | .ai_message c kw i => ("AIMessage", message_dict "AIMessage" c kw i)
  | .human_message c kw i => ("HumanMessage", message_dict "HumanMessage" c kw i)
  | .system_message c kw i => ("SystemMessage", message_dict "SystemMessage" c kw i)
  | o => ("pickle", o)

/-- Lookup in a serialized dict (`obj_dict.get(k)`). -/
def dict_get (k : String) (kvs : List (String × Obj)) : Option Obj :=
  kvs.lookup k

/-- String field with default, as `obj_dict.get('content', '')` reads it. -/
def get_str_field (k : String) (kvs : List (String × Obj)) : String :=
  match dict_get k kvs with
  | some (.str s) => s
  | _ => ""

/-- Optional string field (`obj_dict.get(k)`, default None). -/
def get_opt_str_field (k : String) (kvs : List (String × Obj)) : Option String :=
  match dict_get k kvs with
  | some (.str s) => some s
  | _ => none

/-- Kwargs field (`obj_dict.get('additional_kwargs', {})`). -/
def get_kwargs_field (kvs : List (String × Obj)) : List (String × Obj) :=
  match dict_get "additional_kwargs" kvs with
  | some (.dict d) => d
  | _ => []

/-- Embedding of `CustomSerializer._reconstruct_message` (lines 88-119): turn
a tagged dict back into a message, or return the dict unchanged on an unknown
tag. -/
def reconstruct_message (kvs : List (String × Obj)) : Obj :=
  match dict_get "type" kvs with
  | some (.str "ToolMessage") =>
    .tool_message (get_str_field "content" kvs)
      (get_opt_str_field "tool_call_id" kvs) (get_opt_str_field "name" kvs)
      (get_kwargs_field kvs) (get_opt_str_field "id" kvs)
  | some (.str "AIMessage") =>
    .ai_message (get_str_field "content" kvs) (get_kwargs_field kvs)
      (get_opt_str_field "id" kvs)
  | some (.str "HumanMessage") =>
    .human_message (get_str_field "content" kvs) (get_kwargs_field kvs)
      (get_opt_str_field "id" kvs)
  | some (.str "SystemMessage") =>
    .system_message (get_str_field "content" kvs) (get_kwargs_field kvs)
      (get_opt_str_field "id" kvs)
  | _ => .dict kvs

/-- Embedding of `CustomSerializer.loads_typed` (lines 76-86): unpickle, and
route any dict carrying a `'type'` key through `_reconstruct_message`. -/
def loads_typed (p : String × Obj) : Obj :=
  match p.2 with
  | .dict kvs =>
    if (dict_get "type" kvs).isSome then reconstruct_message kvs else .dict kvs
  | o => o

/-- Field lookup on a serialized state dict (`state["execution_plan"]` etc.). -/
def Obj.field (k : String) : Obj → Option Obj
  | .dict kvs => kvs.lookup k
  | _ => none

/-- What `api/chat.py` keeps per thread id in `_graph_instances`, projected to
the fields the feedback endpoint touches: the persisted session status and the
`user_feedback` value that `update_state` writes. -/
structure GraphSession where
  status : String
  user_feedback : Option String
deriving DecidableEq

/-- Observable outcome of `handle_user_feedback_stream`: the 404
`HTTPException` when no graph instance exists, or a streaming response over
the updated instance table. Because `PlanExecutorGraph` defines no
`process_streaming_events` method, the continuation generator's first step
raises `AttributeError`, which its `except` clause converts into an error
chunk — so the stream body is always that error chunk. -/
inductive FeedbackResponse where
  | http_error (code : Nat) (detail : String)
  | stream_error (updated : List (String × GraphSession)) (message : String)
deriving DecidableEq

/-- Embedding of `api/chat.py handle_user_feedback_stream` (lines 83-129):
look the thread id up in `_graph_instances`; absent → HTTP 404; present →
unconditionally `update_state` with the feedback (no inspection of the
session's status whatsoever) and return the continuation stream, whose body
degenerates to the `AttributeError` error chunk described above. -/
def handle_user_feedback_stream (instances : List (String × GraphSession))
    (thread_id : String) (feedback : Option String) : FeedbackResponse :=
  match instances.lookup thread_id with
  | none => .http_error 404 "未找到对应的图实例"
  | some g =>
    let updated := instances.map
      (fun p => if p.1 = thread_id then (p.1, { g with user_feedback := feedback }) else p)
    .stream_error updated "恢复执行失败: AttributeError"

/-- A concrete plan step that demands confirmation (as the planner prompt's
own file-deletion example instructs the model to mark it). -/
def step_confirm : JsonVal :=
  .obj [("description", .str "删除文件"), ("expected_result", .str "文件被删除"),
        ("requires_confirmation", .bool true),
        ("uncertainty_reason", .str "未指明要删除的路径")]

/-- A concrete plan step with no confirmation requirement. -/
def step_plain : JsonVal :=
  .obj [("description", .str "查询时间"), ("expected_result", .str "当前时间"),
        ("requires_confirmation", .bool false), ("uncertainty_reason", .str "")]

/-- A state as `_analyze_and_plan` leaves it for a given plan. -/
def planned_state (plan : List JsonVal) : ExecState :=
  { initial_state with execution_plan := plan, status := "planned" }

/-- The failed StepResult `_do_execute` builds from a raised error. -/
def failed_step_result (idx : Nat) (e : String) : StepResult :=
  { step := idx + 1, execution_result := "节点执行失败: " ++ e, status := "failed" }

/-- A planner response embedding two JSON blocks: a small one first, and a
larger one — the only one carrying an `execution_plan` — later. Its largest
well-formed embedded block is the second, but `json_match`'s ladder returns
the first parseable depth-limited block, which is the first. -/
def c4_content : String :=
  "x \x7b\"a\": 1\x7d y \x7b\"execution_plan\": [1], \"b\": 2\x7d z"

/-- Unfolded form of `execute_node` on a raised step error, field by field. -/
theorem execute_node_err_fields (e : String) (s : ExecState)
    (hc : s.current_step < s.execution_plan.length) :
    (execute_node (.err e) s).current_step = s.current_step + 1 ∧
    (execute_node (.err e) s).step_results
        = s.step_results ++ [failed_step_result s.current_step e] ∧
    (execute_node (.err e) s).status = "node_failed" ∧
    (execute_node (.err e) s).streaming_chunks
        = s.streaming_chunks ++
          [⟨"executing_node", none⟩,
           ⟨"node_completed", some (failed_step_result s.current_step e)⟩,
           ⟨"execution_failed", none⟩] := by
  have hnle : ¬ s.execution_plan.length ≤ s.current_step := Nat.not_le.mpr hc
  refine ⟨?_, ?_, ?_, ?_⟩ <;>
    simp [execute_node, add_streaming_chunk, do_execute, failed_step_result, hnle]

/-- Unfolded form of `execute_node` on a successful step, field by field. -/
theorem execute_node_ok_fields (r : AgentResult) (s : ExecState)
    (hc : s.current_step < s.execution_plan.length) :
    (execute_node (.ok r) s).current_step = s.current_step + 1 ∧
    (execute_node (.ok r) s).step_results
        = s.step_results ++
          [{ step := s.current_step + 1
             execution_result := do_execute_extract r
             status := "completed" }] ∧
    (execute_node (.ok r) s).status = "node_completed" ∧
    (execute_node (.ok r) s).streaming_chunks
        = s.streaming_chunks ++
          [⟨"executing_node", none⟩,
           ⟨"node_completed",
            some { step := s.current_step + 1
                   execution_result := do_execute_extract r
                   status := "completed" }⟩] := by
  have hnle : ¬ s.execution_plan.length ≤ s.current_step := Nat.not_le.mpr hc
  refine ⟨?_, ?_, ?_, ?_⟩ <;>
    simp [execute_node, add_streaming_chunk, do_execute, hnle]

/-- Agent result used in the confirmation-gate scenario. -/
def c1_outcome : AgentOutcome :=
  .ok (.messagesDict [{ is_ai := true, content := some "文件已删除", repr := "AIMessage" }] "r")

/-- Claim C1: the spec requires that a plan whose current step has
`requires_confirmation` true and no recorded feedback transitions to
`awaiting_confirmation` and emits a `confirmation_required` event before the
step executes. The code has no such gate: `_execute_node` runs the step
directly. At a one-step plan whose step demands confirmation and has no
feedback, the node is executed at once — a result is appended, the cursor
advances, and the emitted chunks are `executing_node` and `node_completed`,
never `confirmation_required`; the status is `node_completed`, not
`awaiting_confirmation`. This contradicts the module's own docstring
("每个节点先检查不确定性，确认后执行") and leaves the imported `interrupt`
primitive unused. -/
theorem c1_gate_missing :
    step_confirm.getKey "requires_confirmation" = some (.bool true) ∧
    step_confirm.getKey "user_feedback" = none ∧
    (execute_node c1_outcome (planned_state [step_confirm])).status
        = "node_completed" ∧
    (execute_node c1_outcome (planned_state [step_confirm])).current_step = 1 ∧
    (execute_node c1_outcome (planned_state [step_confirm])).step_results
        = [{ step := 1, execution_result := "文件已删除", status := "completed" }] ∧
    (execute_node c1_outcome (planned_state [step_confirm])).streaming_chunks.map
        Chunk.step = ["executing_node", "node_completed"] :=
  ⟨rfl, rfl, rfl, rfl, rfl, rfl⟩

/-- Claim C2 counterexample: on a two-step plan whose first step fails, the
claim says "the session status becomes failed". In the code the execute node
sets `node_failed` (not `failed`), routes to `_generate_response`, and a
successful summary call ends the session with status `completed` — the
status is never the terminal `failed` the claim names. The failed result is
appended and the second step never runs, but the final status is
`completed`. -/
theorem c2_counterexample :
    (run_loop (fun _ => .err "boom") (.ok "总结文本") 5
        (planned_state [step_plain, step_plain])).status = "completed" ∧
    (run_loop (fun _ => .err "boom") (.ok "总结文本") 5
        (planned_state [step_plain, step_plain])).step_results.map
        StepResult.status = ["failed"] ∧
    (run_loop (fun _ => .err "boom") (.ok "总结文本") 5
        (planned_state [step_plain, step_plain])).current_step = 1 ∧
    (execute_node (.err "boom") (planned_state [step_plain, step_plain])).status
        = "node_failed" :=
  ⟨rfl, rfl, rfl, rfl⟩

/-- Claim C2 (amended): if executing the step at the current cursor fails, a
StepResult with status `failed` is appended for that step, the session status
becomes `node_failed`, no later step of the plan is executed and the failed
step is not retried — the loop exits to `_generate_response`, which on a
successful summary call overwrites the status with `completed`. -/
theorem c2_amended_thm (orc : Nat → AgentOutcome) (e : String)
    (sm : Except String String) (fuel : Nat) (s : ExecState)
    (hc : s.current_step < s.execution_plan.length)
    (he : orc s.current_step = .err e) :
    (execute_node (orc s.current_step) s).step_results
        = s.step_results ++ [failed_step_result s.current_step e] ∧
    (failed_step_result s.current_step e).status = "failed" ∧
    (execute_node (orc s.current_step) s).status = "node_failed" ∧
    run_loop orc sm (fuel + 1) s
        = generate_response sm (execute_node (orc s.current_step) s) ∧
    (∀ t, sm = .ok t → (run_loop orc sm (fuel + 1) s).status = "completed") := by
  obtain ⟨-, hres, hstat, -⟩ := execute_node_err_fields e s hc
  rw [he]
  have hloop : run_loop orc sm (fuel + 1) s
      = generate_response sm (execute_node (.err e) s) := by
    simp [run_loop, after_execute_node, he, hstat]
  refine ⟨hres, rfl, hstat, hloop, ?_⟩
  rintro t rfl
  rw [hloop]
  simp [generate_response, add_streaming_chunk]

/-- Closed witness for `c2_amended_thm` at the two-step failing plan. -/
theorem c2_amended_witness :
    (execute_node ((fun _ => .err "boom") (planned_state [step_plain, step_plain]).current_step)
        (planned_state [step_plain, step_plain])).step_results
        = (planned_state [step_plain, step_plain]).step_results
          ++ [failed_step_result (planned_state [step_plain, step_plain]).current_step "boom"] ∧
    run_loop (fun _ => .err "boom") (.ok "总结文本") 3 (planned_state [step_plain, step_plain])
        = generate_response (.ok "总结文本")
            (execute_node ((fun _ => .err "boom") (planned_state [step_plain, step_plain]).current_step)
              (planned_state [step_plain, step_plain])) := by
  obtain ⟨h1, -, -, h4, -⟩ :=
    c2_amended_thm (fun _ => .err "boom") "boom" (.ok "总结文本") 2
      (planned_state [step_plain, step_plain]) (by decide) rfl
  exact ⟨h1, h4⟩

/-- Claim C3 counterexample: the spec's executor would fall back to a direct
toolless inference call when the agent invocation raises, and report
`completed` when the fallback succeeds. The code's `_do_execute` has no
fallback path: on the same raised error, where the spec-modelled executor
(with a succeeding fallback) reports `completed`, the code reports `failed`
with the error text. -/
theorem c3_counterexample :
    (do_execute (.err "timeout") step_plain 0).status = "failed" ∧
    (do_execute (.err "timeout") step_plain 0).execution_result
        = "节点执行失败: timeout" ∧
    (do_execute_with_fallback (.err "timeout")
        (.ok (.contentObj "北京时间 12:00")) step_plain 0).status = "completed" ∧
    (do_execute_with_fallback (.err "timeout")
        (.ok (.contentObj "北京时间 12:00")) step_plain 0).execution_result
        = "北京时间 12:00" :=
  ⟨rfl, rfl, rfl, rfl⟩

/-- Claim C3 (amended): if the tool-augmented agent invocation raises, the
executor makes no fallback inference call at all — `_do_execute` immediately
returns a failed StepResult embedding the stringified error, for every step
and every error. -/
theorem c3_amended_thm (e : String) (node : JsonVal) (i : Nat) :
    do_execute (.err e) node i =
      { step := i + 1
        execution_result := "节点执行失败: " ++ e
        status := "failed" } := rfl

/-- Claim C4 counterexample: on `c4_content`, the spec's ladder ("largest
well-formed embedded structured block") recovers the larger block holding the
`execution_plan`, but `json_match` — whose second strategy only tries the one
greedy first-brace-to-last-brace span and then falls through to the first
parseable depth-limited block — returns the small first block instead. -/
theorem c4_counterexample :
    json_match c4_content = .obj [("a", .num 1)] ∧
    spec_parse_ladder c4_content
        = some (.obj [("execution_plan", .arr [.num 1]), ("b", .num 2)]) ∧
    spec_parse_ladder c4_content ≠ some (json_match c4_content) := by
  refine ⟨rfl, rfl, ?_⟩
  intro h
  have h2 := congrArg (fun o => (o.getD .null).hasKey "execution_plan") h
  exact absurd h2 (by decide)

/-- Claim C4 (amended): the parse ladder actually implemented is — attempt a
whole-payload parse; then parse the single span from the first opening brace
to the last closing brace (the greedy regex match), with no search among other
well-formed blocks; then return the first parseable embedded block found by
the depth-≤1 scan, then by the depth-≤2 scan; else `{}`. The planning node
fails (status `failed`, no retry) exactly when the payload this ladder
recovers has no truthy `execution_plan` entry. -/
theorem c4_amended_thm :
    (∀ c v, py_json_loads c = some v → json_match c = v) ∧
    (∀ c v, py_json_loads c = none →
      (first_last_brace_span c.data).bind py_json_loads_chars = some v →
      json_match c = v) ∧
    (∀ c v, py_json_loads c = none →
      (first_last_brace_span c.data).bind py_json_loads_chars = none →
      first_parseable (find_all_blocks 1 c.data.length c.data) = some v →
      json_match c = v) ∧
    (∀ c, py_json_loads c = none →
      (first_last_brace_span c.data).bind py_json_loads_chars = none →
      first_parseable (find_all_blocks 1 c.data.length c.data) = none →
      json_match c
        = (first_parseable (find_all_blocks 2 c.data.length c.data)).getD (.obj [])) ∧
    (∀ content s, (analyze_and_plan content s).status = "failed"
        ↔ plan_value (json_match content) = none) := by
  refine ⟨?_, ?_, ?_, ?_, ?_⟩
  · intro c v h
    rw [py_json_loads] at h
    cases hcs : c.data with
    | nil =>
      rw [hcs] at h
      exact absurd h (by rw [show py_json_loads_chars [] = none from rfl]; simp)
    | cons a as =>
      rw [hcs] at h
      simp [json_match, hcs, h]
  · intro c v h h2
    rw [py_json_loads] at h
    cases hcs : c.data with
    | nil =>
      rw [hcs] at h2
      exact absurd h2 (by simp [first_last_brace_span, List.findIdx?])
    | cons a as =>
      rw [hcs] at h h2
      simp [json_match, hcs, h, h2]
  · intro c v h h2 h3
    rw [py_json_loads] at h
    cases hcs : c.data with
    | nil =>
      rw [hcs] at h3
      exact absurd h3 (by simp [find_all_blocks, first_parseable])
    | cons a as =>
      rw [hcs] at h h2 h3
      simp only [List.length_cons] at h3
      simp [json_match, hcs, h, h2, h3]
  · intro c h h2 h3
    rw [py_json_loads] at h
    cases hcs : c.data with
    | nil => simp [json_match, hcs, find_all_blocks, first_parseable]
    | cons a as =>
      rw [hcs] at h h2 h3
      simp only [List.length_cons] at h3
      cases h4 : first_parseable (find_all_blocks 2 (as.length + 1) (a :: as)) with
      | none => simp [json_match, hcs, h, h2, h3, h4]
      | some w => simp [json_match, hcs, h, h2, h3, h4]
  · intro content s
    unfold analyze_and_plan
    cases hpv : plan_value (json_match content) with
    | some v => simp [hpv, add_streaming_chunk]
    | none => simp [hpv]

/-- Closed witness for `c4_amended_thm`: a clean whole-payload plan parses in
one step, and a junk payload makes the planning node fail. -/
theorem c4_amended_witness :
    json_match "\x7b\"execution_plan\": [1]\x7d"
        = JsonVal.obj [("execution_plan", JsonVal.arr [JsonVal.num 1])] ∧
    ((analyze_and_plan "no structured payload here" initial_state).status = "failed"
        ↔ plan_value (json_match "no structured payload here") = none) :=
  ⟨c4_amended_thm.1 _ _ rfl, c4_amended_thm.2.2.2.2 _ _⟩

/-- Claim C5: after `_analyze_and_plan` initializes the state and after every
complete `_execute_node` transition — success, failure, or the past-the-end
no-op — the step cursor equals the length of the results list; and whenever a
step actually executes, exactly one result is appended and the cursor grows by
exactly one. -/
theorem c5_cursor_invariant :
    (∀ content s, (analyze_and_plan content s).status = "planned" →
      cursor_invariant (analyze_and_plan content s)) ∧
    (∀ o s, cursor_invariant s → cursor_invariant (execute_node o s)) ∧
    (∀ o s, s.current_step < s.execution_plan.length →
      (execute_node o s).step_results.length = s.step_results.length + 1 ∧
      (execute_node o s).current_step = s.current_step + 1) := by
  refine ⟨?_, ?_, ?_⟩
  · intro content s _h
    unfold analyze_and_plan at _h ⊢
    cases hpv : plan_value (json_match content) with
    | some v => simp [hpv, add_streaming_chunk, cursor_invariant]
    | none => simp [hpv] at _h
  · intro o s hinv
    unfold cursor_invariant at hinv ⊢
    by_cases hc : s.current_step < s.execution_plan.length
    · cases o with
      | ok r =>
        obtain ⟨h1, h2, -, -⟩ := execute_node_ok_fields r s hc
        simp [h1, h2, hinv]
      | err e =>
        obtain ⟨h1, h2, -, -⟩ := execute_node_err_fields e s hc
        simp [h1, h2, hinv]
    · have hle : s.execution_plan.length ≤ s.current_step := Nat.not_lt.mp hc
      unfold execute_node
      rw [if_pos hle]
      exact hinv
  · intro o s hc
    cases o with
    | ok r =>
      obtain ⟨h1, h2, -, -⟩ := execute_node_ok_fields r s hc
      exact ⟨by simp [h2], h1⟩
    | err e =>
      obtain ⟨h1, h2, -, -⟩ := execute_node_err_fields e s hc
      exact ⟨by simp [h2], h1⟩

/-- Closed witness for `c5_cursor_invariant` on a parsed one-step plan and one
executed step. -/
theorem c5_cursor_invariant_witness :
    cursor_invariant (analyze_and_plan "\x7b\"execution_plan\": [1]\x7d" initial_state) ∧
    cursor_invariant (execute_node (.err "boom") (planned_state [step_plain])) :=
  ⟨c5_cursor_invariant.1 _ initial_state (by decide),
   c5_cursor_invariant.2.1 _ (planned_state [step_plain]) (by decide)⟩

/-- Scanning past messages that lack content or the assistant tag finds the
same result as scanning the remainder. -/
theorem find_ai_content_skip (xs rest : List Msg)
    (h : ∀ m ∈ xs, (m.content.isSome && m.is_ai) = false) :
    find_ai_content (xs ++ rest) = find_ai_content rest := by
  induction xs with
  | nil => rfl
  | cons x xs ih =>
    have hx := h x (by simp)
    rw [List.cons_append, find_ai_content, hx]
    · exact ih (fun m hm => h m (by simp [hm]))

/-- Claim C6: the extraction of `_do_execute` follows the documented priority
order — take the content of the last assistant-tagged message of the returned
message sequence; when no message is assistant-tagged, take the last message
(its content, else its `str` rendering); a bare truthy text payload is used
directly. -/
theorem c6_extraction_priority :
    (∀ pre post (m : Msg) (c r : String),
      m.is_ai = true → m.content = some c →
      (∀ m' ∈ post, (m'.content.isSome && m'.is_ai) = false) →
      do_execute_extract (.messagesDict (pre ++ m :: post) r) = c) ∧
    (∀ msgs (last : Msg) (r : String),
      (∀ m' ∈ msgs, (m'.content.isSome && m'.is_ai) = false) →
      msgs.getLast? = some last →
      do_execute_extract (.messagesDict msgs r) = last.content.getD last.repr) ∧
    (∀ s, s ≠ "" → do_execute_extract (.bare s true) = s) := by
  refine ⟨?_, ?_, ?_⟩
  · intro pre post m c r hai hc hpost
    have hemp : (pre ++ m :: post).isEmpty = false := by simp
    have hrev : (pre ++ m :: post).reverse = post.reverse ++ m :: pre.reverse := by
      simp
    have hskip : find_ai_content (post.reverse ++ m :: pre.reverse)
        = find_ai_content (m :: pre.reverse) :=
      find_ai_content_skip post.reverse (m :: pre.reverse)
        (fun m' hm' => hpost m' (List.mem_reverse.mp hm'))
    have hfind : find_ai_content (m :: pre.reverse) = some c := by
      rw [find_ai_content, hc, hai]
      simp
    rw [do_execute_extract, hemp, hrev, hskip, hfind]
    simp
  · intro msgs last r hnone hlast
    cases msgs with
    | nil => exact absurd hlast (by simp)
    | cons x xs =>
      have hemp : (x :: xs).isEmpty = false := by simp
      have hskip : find_ai_content ((x :: xs).reverse ++ [])
          = find_ai_content [] :=
        find_ai_content_skip (x :: xs).reverse []
          (fun m' hm' => hnone m' (List.mem_reverse.mp hm'))
      rw [List.append_nil] at hskip
      rw [do_execute_extract, hemp, hskip, find_ai_content, hlast]
      simp
  · intro s _hs
    rfl

/-- Closed witness for `c6_extraction_priority`: the last assistant-tagged
message wins over a trailing tool message, and a bare payload passes through. -/
theorem c6_extraction_priority_witness :
    do_execute_extract (.messagesDict
      [{ is_ai := false, content := some "human ask", repr := "HumanMessage" },
       { is_ai := true, content := some "final answer", repr := "AIMessage" },
       { is_ai := false, content := some "tool output", repr := "ToolMessage" }] "r")
      = "final answer" ∧
    do_execute_extract (.bare "raw text payload" true) = "raw text payload" :=
  ⟨c6_extraction_priority.1
      [{ is_ai := false, content := some "human ask", repr := "HumanMessage" }]
      [{ is_ai := false, content := some "tool output", repr := "ToolMessage" }]
      { is_ai := true, content := some "final answer", repr := "AIMessage" }
      "final answer" "r" rfl rfl (by decide),
   c6_extraction_priority.2.2 "raw text payload" (by decide)⟩

/-- Claim C7 counterexample: a step whose extracted text is `"ok"` — shorter
than the 10-character threshold — is executed by `_do_execute`, and its
StepResult keeps the bare short text: no wrapping with the step description
and completed-status annotation occurs on the execution path. The wrapping
exists only in `base_graph._extract_execution_result`, which no live executor
path calls. -/
theorem c7_counterexample :
    (do_execute (.ok (.messagesDict
        [{ is_ai := true, content := some "ok", repr := "AIMessage" }] "r"))
        step_plain 0).execution_result = "ok" ∧
    (do_execute (.ok (.messagesDict
        [{ is_ai := true, content := some "ok", repr := "AIMessage" }] "r"))
        step_plain 0).status = "completed" ∧
    "ok".length < 10 ∧
    (do_execute (.ok (.messagesDict
        [{ is_ai := true, content := some "ok", repr := "AIMessage" }] "r"))
        step_plain 0).execution_result
      ≠ "任务描述: 查询时间\n执行状态: 已完成\n结果: ok" ∧
    extract_execution_result (.messagesDict
        [{ is_ai := true, content := some "ok", repr := "AIMessage" }] "r") "查询时间"
      = "任务描述: 查询时间\n执行状态: 已完成\n结果: ok" :=
  ⟨rfl, rfl, by decide, by decide, rfl⟩

/-- Claim C7 (amended): the short-or-apology wrapping is implemented in the
shared base-graph extraction helper — whenever the selected text is shorter
than 10 characters or contains the apology marker case-insensitively, that
helper returns it wrapped with the step description and a completed-status
annotation — but the plan executor's step execution (`_do_execute`) does not
call the helper: its StepResult carries the raw extracted text unmodified. -/
theorem c7_amended_thm :
    (∀ r d,
      (decide ((base_extract_inner r).length < 10)
        || contains_sub apology_marker.data (to_lower_chars (base_extract_inner r).data)) = true →
      extract_execution_result r d
        = "任务描述: " ++ d ++ "\n执行状态: 已完成\n结果: " ++ base_extract_inner r) ∧
    (∀ o node i,
      (do_execute (.ok o) node i).execution_result = do_execute_extract o ∧
      (do_execute (.ok o) node i).status = "completed") := by
  constructor
  · intro r d h
    rw [extract_execution_result]
    simp only [h]
    rfl
  · intro o node i
    exact ⟨rfl, rfl⟩

/-- Closed witness for `c7_amended_thm`: an apology-marked text is wrapped by
the base helper, and `_do_execute` passes the same extraction through bare. -/
theorem c7_amended_witness :
    extract_execution_result (.contentObj "Sorry, I cannot do that right now") "画图"
      = "任务描述: 画图\n执行状态: 已完成\n结果: Sorry, I cannot do that right now" ∧
    (do_execute (.ok (.contentObj "Sorry, I cannot do that right now"))
        step_plain 0).execution_result
      = do_execute_extract (.contentObj "Sorry, I cannot do that right now") :=
  ⟨c7_amended_thm.1 (.contentObj "Sorry, I cannot do that right now") "画图" (by decide),
   (c7_amended_thm.2 (.contentObj "Sorry, I cannot do that right now") step_plain 0).1⟩

/-- Claim C8: the spec's resume contract demands rejection of every resume
whose session is not `awaiting_confirmation`. The endpoint never inspects the
persisted status: an unknown thread id gets the 404, but a session that is
already `completed` is not rejected — its state is mutated with the feedback
(`update_state` runs unconditionally) and the continuation stream is entered,
where the call to the undefined `process_streaming_events` method makes every
resume die with an `AttributeError` error chunk instead of resuming. -/
theorem c8_resume_no_status_check :
    handle_user_feedback_stream
        [("user01", { status := "completed", user_feedback := none })]
        "user01" (some "continue anyway")
      = .stream_error
          [("user01", { status := "completed", user_feedback := some "continue anyway" })]
          "恢复执行失败: AttributeError" ∧
    handle_user_feedback_stream [] "user01" (some "hello")
      = .http_error 404 "未找到对应的图实例" :=
  ⟨rfl, rfl⟩

/-- Claim C9: round-tripping a checkpointed state through
`CustomSerializer.dumps_typed` / `loads_typed` is the identity on every state
dict (none of whose top-level keys is the serializer's `'type'` tag — the
`PlanExecutorState` keys never include it), so the reloaded state's
`execution_plan`, `current_step` and `step_results` equal the originals. -/
theorem c9_roundtrip (kvs : List (String × Obj))
    (h : (dict_get "type" kvs).isSome = false) :
    loads_typed (dumps_typed (Obj.dict kvs)) = Obj.dict kvs ∧
    (loads_typed (dumps_typed (Obj.dict kvs))).field "execution_plan"
        = (Obj.dict kvs).field "execution_plan" ∧
    (loads_typed (dumps_typed (Obj.dict kvs))).field "current_step"
        = (Obj.dict kvs).field "current_step" ∧
    (loads_typed (dumps_typed (Obj.dict kvs))).field "step_results"
        = (Obj.dict kvs).field "step_results" := by
  have hid : loads_typed (dumps_typed (Obj.dict kvs)) = Obj.dict kvs := by
    have hd : dumps_typed (Obj.dict kvs) = ("pickle", Obj.dict kvs) := rfl
    rw [hd]
    show (if (dict_get "type" kvs).isSome then reconstruct_message kvs
          else Obj.dict kvs) = Obj.dict kvs
    simp [h]
  exact ⟨hid, by rw [hid], by rw [hid], by rw [hid]⟩

/-- Closed witness for `c9_roundtrip` on a concrete planned-state snapshot. -/
theorem c9_roundtrip_witness :
    loads_typed (dumps_typed (Obj.dict
      [("execution_plan", Obj.list [Obj.str "step1"]),
       ("current_step", Obj.int 1),
       ("step_results", Obj.list [Obj.str "r1"]),
       ("status", Obj.str "node_completed")]))
      = Obj.dict
      [("execution_plan", Obj.list [Obj.str "step1"]),
       ("current_step", Obj.int 1),
       ("step_results", Obj.list [Obj.str "r1"]),
       ("status", Obj.str "node_completed")] :=
  (c9_roundtrip
    [("execution_plan", Obj.list [Obj.str "step1"]),
     ("current_step", Obj.int 1),
     ("step_results", Obj.list [Obj.str "r1"]),
     ("status", Obj.str "node_completed")] (by decide)).1

/-- Claim C10: when the step at the cursor fails, `_execute_node` still
increments the cursor and appends the chunks in this order — `executing_node`,
then the success-styled `node_completed` chunk carrying the failed StepResult,
then `execution_failed` — so a consumer of the stream sees the per-step
completion event before the failure event. -/
theorem c10_failed_step_stream (e : String) (s : ExecState)
    (hc : s.current_step < s.execution_plan.length) :
    (execute_node (.err e) s).current_step = s.current_step + 1 ∧
    (execute_node (.err e) s).streaming_chunks
        = s.streaming_chunks ++
          [⟨"executing_node", none⟩,
           ⟨"node_completed", some (failed_step_result s.current_step e)⟩,
           ⟨"execution_failed", none⟩] ∧
    (failed_step_result s.current_step e).status = "failed" := by
  obtain ⟨h1, -, -, h4⟩ := execute_node_err_fields e s hc
  exact ⟨h1, h4, rfl⟩

/-- Closed witness for `c10_failed_step_stream` at a failing one-step plan. -/
theorem c10_failed_step_stream_witness :
    (execute_node (.err "tool crash") (planned_state [step_plain])).streaming_chunks
      = (planned_state [step_plain]).streaming_chunks ++
        [⟨"executing_node", none⟩,
         ⟨"node_completed",
          some (failed_step_result (planned_state [step_plain]).current_step "tool crash")⟩,
         ⟨"execution_failed", none⟩] :=
  (c10_failed_step_stream "tool crash" (planned_state [step_plain]) (by decide)).2.1

end XAgentic
